import Mathlib

/-
Shallow embedding of the Solana Address Lookup Table program
(solana-program/address-lookup-table, src/program/src), covering the state
model (state.rs), the instruction decoder and the five instruction handlers
(processor.rs) to the extent needed for the verified properties below.

Machine integers (u64 slots and lamports, usize lengths, u8 indices) are
embedded as Nat; every arithmetic operation used by the program on these
types (equality tests, comparisons, saturating_sub, saturating_add,
checked_add with an explicit overflow test against 2^64-1 where the source
checks it) coincides with the Nat operations used here on in-range values.
Byte buffers are lists of Nat (each intended < 256).
-/

namespace ALT

/-- Embedding of a 32-byte Solana public key. -/
def Pubkey := { l : List Nat // l.length = 32 }

instance : DecidableEq Pubkey :=
  fun a b => decEq (α := { l : List Nat // l.length = 32 }) a b

/-- Helper to build concrete public keys for concrete evaluations. -/
def pk (n : Nat) : Pubkey :=
  ⟨n % 256 :: List.replicate 31 0, by simp⟩

/-- Constant from state.rs: the maximum number of addresses a table can hold. -/
def LOOKUP_TABLE_MAX_ADDRESSES : Nat := 256

/-- Constant from state.rs: the serialized size of lookup table metadata. -/
def LOOKUP_TABLE_META_SIZE : Nat := 56

/-- Constant from solana_program::slot_hashes: maximum SlotHashes entries. -/
def MAX_ENTRIES : Nat := 512

/-- Largest u64 value, the sentinel deactivation slot (Slot::MAX). -/
def u64Max : Nat := 18446744073709551615

/-- Constant from processor.rs: maximum input buffer length (packet size). -/
def MAX_INPUT_LEN : Nat := 1232

/-- Constant from processor.rs: maximum new-keys vector length for extend,
computed as in the source from the input cap. -/
def MAX_NEW_KEYS_VECTOR_LEN : Nat := (MAX_INPUT_LEN - 4 - 8) / 32

/-- Embedding of the errors the program can surface (ProgramError in the
source); custom codes carry the AddressLookupTableError numeric values
(error.rs): 10 = ReadonlyDataModified, 11 = ReadonlyLamportsChanged,
0-2 = reimplemented PubkeyError variants. Cross-program failures of the
system program surface as custom codes of that program; they are embedded
as custom codes as well (the exact value is irrelevant to every claim). -/
inductive ProgramError where
  | custom (code : Nat)
  | invalidArgument
  | invalidInstructionData
  | invalidAccountData
  | accountDataTooSmall
  | uninitializedAccount
  | missingRequiredSignature
  | invalidAccountOwner
  | immutable
  | incorrectAuthority
  | arithmeticOverflow
  | notEnoughAccountKeys
deriving DecidableEq, Repr

deriving instance DecidableEq for Except

/-- Activation status of a lookup table (state.rs / processor.rs). -/
inductive LookupTableStatus where
  | activated
  | deactivating (remaining_blocks : Nat)
  | deactivated
deriving DecidableEq, Repr

/-- Address lookup table metadata (state.rs LookupTableMeta). The source
field _padding is embedded as padding. -/
structure LookupTableMeta where
  deactivation_slot : Nat
  last_extended_slot : Nat
  last_extended_slot_start_index : Nat
  authority : Option Pubkey
  padding : Nat
deriving DecidableEq

/-- Embedding of LookupTableMeta::new from state.rs (Default with the
given authority). -/
def LookupTableMeta.new (authority : Pubkey) : LookupTableMeta :=
  { deactivation_slot := u64Max
    last_extended_slot := 0
    last_extended_slot_start_index := 0
    authority := some authority
    padding := 0 }

/-- Embedding of calculate_slot_position from state.rs. Nat subtraction is
truncated exactly like u64 saturating_sub. -/
def calculate_slot_position (target_slot current_slot : Nat) : Option Nat :=
  let position := current_slot - target_slot
  if position ≥ MAX_ENTRIES then none else some position

/-- Embedding of LookupTableMeta::status from state.rs. -/
def LookupTableMeta.status (meta : LookupTableMeta) (current_slot : Nat) :
    LookupTableStatus :=
  if meta.deactivation_slot = u64Max then .activated
  else if meta.deactivation_slot = current_slot then .deactivating MAX_ENTRIES
  else
    match calculate_slot_position meta.deactivation_slot current_slot with
    | some slot_position => .deactivating (MAX_ENTRIES - slot_position)
    | none => .deactivated

/-- Modelled from the spec: SlotHashesSysvar::position (solana_program,
not part of src/) returns the position of a slot in the SlotHashes sysvar.
Spec 4.2 and 6: the slot position is current_slot minus deactivation_slot
when that is less than 512, else undefined; this is the same bounded
difference as calculate_slot_position in state.rs. -/
def slotHashesPosition (slot current_slot : Nat) : Option Nat :=
  calculate_slot_position slot current_slot

/-- Embedding of get_lookup_table_status from processor.rs, with the
SlotHashes sysvar position spec-modelled by slotHashesPosition. The
same-slot branch uses MAX_ENTRIES.saturating_add(1) in the source. -/
def get_lookup_table_status (deactivation_slot current_slot : Nat) :
    Except ProgramError LookupTableStatus :=
  if deactivation_slot = u64Max then .ok .activated
  else if deactivation_slot = current_slot then
    .ok (.deactivating (MAX_ENTRIES + 1))
  else
    match slotHashesPosition deactivation_slot current_slot with
    | some slot_position => .ok (.deactivating (MAX_ENTRIES - slot_position))
    | none => .ok .deactivated

/-- Little-endian fixed-width byte encoding of a natural number, k bytes. -/
def leBytes (k n : Nat) : List Nat :=
  (List.range k).map (fun i => n / 256 ^ i % 256)

/-- Bincode (fixint, little-endian) serialization of
ProgramState::LookupTable(meta): 4-byte variant tag 1, u64
deactivation_slot, u64 last_extended_slot, u8 start index, Option authority
as a one-byte presence flag followed by the 32 key bytes when present,
u16 padding. Length is 24 with authority absent and 56 when present. -/
def serializeLookupTableState (meta : LookupTableMeta) : List Nat :=
  leBytes 4 1 ++ leBytes 8 meta.deactivation_slot ++
    leBytes 8 meta.last_extended_slot ++
    [meta.last_extended_slot_start_index % 256] ++
    (match meta.authority with
     | none => [0]
     | some key => 1 :: key.val) ++
    leBytes 2 meta.padding

/-- Embedding of AddressLookupTable::overwrite_meta_data from state.rs:
take the first 56 bytes (error InvalidAccountData when the buffer is
shorter), zero-fill them, and serialize ProgramState::LookupTable(meta)
into them (error InvalidAccountData when the encoding would not fit). -/
def overwrite_meta_data (data : List Nat) (lookup_table_meta : LookupTableMeta) :
    Except ProgramError (List Nat) :=
  if data.length < LOOKUP_TABLE_META_SIZE then .error .invalidAccountData
  else
    let encoded := serializeLookupTableState lookup_table_meta
    if LOOKUP_TABLE_META_SIZE < encoded.length then .error .invalidAccountData
    else
      .ok (encoded ++ List.replicate (LOOKUP_TABLE_META_SIZE - encoded.length) 0 ++
        data.drop LOOKUP_TABLE_META_SIZE)

/-- Embedding of ProgramState::serialize_new_lookup_table from state.rs:
check the serialized size against the buffer, then serialize into the
start of the buffer, leaving the remaining bytes as they were. -/
def serialize_new_lookup_table (data : List Nat) (authority_key : Pubkey) :
    Except ProgramError (List Nat) :=
  let lookup_table := serializeLookupTableState (LookupTableMeta.new authority_key)
  if data.length < lookup_table.length then .error .accountDataTooSmall
  else .ok (lookup_table ++ data.drop lookup_table.length)

/-- Little-endian value of a byte list (inverse of leBytes on byte lists). -/
def leVal (l : List Nat) : Nat :=
  l.foldr (fun b acc => b + 256 * acc) 0

/-- Stub of AddressLookupTableInstruction for partial deserialization
(processor.rs InstructionStub). -/
inductive InstructionStub where
  | createLookupTable
  | freezeLookupTable
  | extendLookupTable (vector_len : Nat)
  | deactivateLookupTable
  | closeLookupTable
deriving DecidableEq, Repr

/-- Bincode (fixint, little-endian, trailing bytes allowed) deserialization
of InstructionStub: a 4-byte little-endian variant tag, then for variant 2
an 8-byte little-endian u64 vector length; none on a short buffer or an
out-of-range tag. -/
def deserializeStub (input : List Nat) : Option InstructionStub :=
  if input.length < 4 then none
  else
    let tag := leVal (input.take 4)
    if tag = 0 then some .createLookupTable
    else if tag = 1 then some .freezeLookupTable
    else if tag = 2 then
      if input.length < 12 then none
      else some (.extendLookupTable (leVal ((input.drop 4).take 8)))
    else if tag = 3 then some .deactivateLookupTable
    else if tag = 4 then some .closeLookupTable
    else none

/-- Instructions supported by the program (instruction.rs). -/
inductive AddressLookupTableInstruction where
  | createLookupTable (recent_slot : Nat) (bump_seed : Nat)
  | freezeLookupTable
  | extendLookupTable (new_addresses : List Pubkey)
  | deactivateLookupTable
  | closeLookupTable
deriving DecidableEq

/-- Read n 32-byte public keys from the front of a byte list. -/
def readPubkeys : Nat → List Nat → Option (List Pubkey)
  | 0, _ => some []
  | n + 1, l =>
    if h : l.length < 32 then none
    else
      match readPubkeys n (l.drop 32) with
      | some keys =>
        some (⟨l.take 32, by
          rw [List.length_take]
          omega⟩ :: keys)
      | none => none

/-- Bincode deserialization of the full AddressLookupTableInstruction:
4-byte tag, then the variant payload (u64 recent_slot and u8 bump_seed for
create; u64 length-prefixed vector of 32-byte keys for extend). Trailing
bytes are allowed. -/
def deserializeInstruction (input : List Nat) :
    Option AddressLookupTableInstruction :=
  if input.length < 4 then none
  else
    let tag := leVal (input.take 4)
    let rest := input.drop 4
    if tag = 0 then
      if rest.length < 9 then none
      else some (.createLookupTable (leVal (rest.take 8)) (leVal ((rest.drop 8).take 1)))
    else if tag = 1 then some .freezeLookupTable
    else if tag = 2 then
      if rest.length < 8 then none
      else
        match readPubkeys (leVal (rest.take 8)) (rest.drop 8) with
        | some keys => some (.extendLookupTable keys)
        | none => none
    else if tag = 3 then some .deactivateLookupTable
    else if tag = 4 then some .closeLookupTable
    else none

/-- Modelled from the spec: solana_program::program_utils::limited_deserialize
(not part of src/). Spec 4.3: the input is a raw byte slice of length at
most 1232 and any overflow fails InvalidInstructionData; within the cap the
instruction is bincode-decoded as described above. -/
def limited_deserialize (input : List Nat) (limit : Nat) :
    Except ProgramError AddressLookupTableInstruction :=
  if limit < input.length then .error .invalidInstructionData
  else
    match deserializeInstruction input with
    | some ix => .ok ix
    | none => .error .invalidInstructionData

/-- Embedding of safe_deserialize_instruction from processor.rs,
generalized over the second-stage (full) deserializer so that the place of
the vector-length peek in front of any full deserialization is explicit in
the statement of lemmas. The stub is decoded first; an ExtendLookupTable
stub whose vector length exceeds MAX_NEW_KEYS_VECTOR_LEN is rejected
before the second stage runs. -/
def safeDeserializeWith
    (full : List Nat → Except ProgramError AddressLookupTableInstruction)
    (input : List Nat) : Except ProgramError AddressLookupTableInstruction :=
  match deserializeStub input with
  | none => .error .invalidInstructionData
  | some (.extendLookupTable vector_len) =>
    if MAX_NEW_KEYS_VECTOR_LEN < vector_len then .error .invalidInstructionData
    else full input
  | some _ => full input

/-- Embedding of safe_deserialize_instruction from processor.rs. -/
def safe_deserialize_instruction (input : List Nat) :
    Except ProgramError AddressLookupTableInstruction :=
  safeDeserializeWith (fun i => limited_deserialize i MAX_INPUT_LEN) input

/-- Lookup table account as seen by the extend and close handlers, in the
parsed view produced by AddressLookupTable::deserialize: the meta prefix
and the trailing address list (the raw buffer has length 56 + 32 * n for a
list of n addresses). -/
structure TableAccount where
  key : Pubkey
  owner : Pubkey
  lamports : Nat
  is_writable : Bool
  meta : LookupTableMeta
  addresses : List Pubkey
deriving DecidableEq

/-- Authority account: only its key and signer flag are consulted. -/
structure SignerAccount where
  key : Pubkey
  is_signer : Bool
deriving DecidableEq

/-- Payer account for the rent top-up transfer. -/
structure PayerAccount where
  key : Pubkey
  is_signer : Bool
  lamports : Nat
deriving DecidableEq

/-- Account inputs of process_extend_lookup_table, in instruction order:
the table, the authority, then an optional payer and an optional system
program account (none embeds next_account_info running out of accounts). -/
structure ExtendAccounts where
  lookup_table : TableAccount
  authority : SignerAccount
  payer : Option PayerAccount
  has_system_program : Bool
deriving DecidableEq

/-- Result state of a successful extend: the updated table account and the
payer (debited when a rent top-up transfer ran). -/
structure ExtendOk where
  lookup_table : TableAccount
  payer : Option PayerAccount
deriving DecidableEq

/-- Mutation phase of process_extend_lookup_table: the meta update stamped
with the clock slot (the source mutates lookup_table.meta in place before
handing it to overwrite_meta_data), followed by realloc to the new data
length and copy_from_slice of the new keys into the address region
starting at the old count, embedded on the parsed view as setting the meta
and appending the new keys. -/
def extend_mutated_table (t : TableAccount) (new_addresses : List Pubkey)
    (clock_slot : Nat) : TableAccount :=
  let old_table_addresses_len := t.addresses.length
  let meta :=
    if clock_slot ≠ t.meta.last_extended_slot then
      { t.meta with
        last_extended_slot := clock_slot
        last_extended_slot_start_index := old_table_addresses_len }
    else t.meta
  { t with meta := meta, addresses := t.addresses ++ new_addresses }

/-- Rent top-up phase of process_extend_lookup_table: when the required
lamports are positive, the payer is fetched (NotEnoughAccountKeys when
missing), must be a signer, the system program account is fetched, and the
transfer runs (a failing system-program transfer, payer balance below the
requirement, surfaces as that program's custom error, embedded custom 1). -/
def extend_rent_topup (t : TableAccount) (payer : Option PayerAccount)
    (has_system_program : Bool) (required_lamports : Nat) :
    Except ProgramError ExtendOk :=
  if 0 < required_lamports then
    match payer with
    | none => .error .notEnoughAccountKeys
    | some p =>
      if p.is_signer = false then .error .missingRequiredSignature
      else if has_system_program = false then .error .notEnoughAccountKeys
      else if p.lamports < required_lamports then .error (.custom 1)
      else
        .ok { lookup_table := { t with lamports := t.lamports + required_lamports }
              payer := some { p with lamports := p.lamports - required_lamports } }
  else .ok { lookup_table := t, payer := payer }

/-- Embedding of process_extend_lookup_table from processor.rs. The
checked_add computing the new data length cannot overflow Nat, so the
ArithmeticOverflow branch of the source has no counterpart here. The rent
sysvar is the parameter rentMin; the clock slot is clock_slot. -/
def process_extend_lookup_table (program_id : Pubkey) (accs : ExtendAccounts)
    (new_addresses : List Pubkey) (clock_slot : Nat) (rentMin : Nat → Nat) :
    Except ProgramError ExtendOk :=
  let t := accs.lookup_table
  if t.owner ≠ program_id then .error .invalidAccountOwner
  else if accs.authority.is_signer = false then .error .missingRequiredSignature
  else if t.meta.authority = none then .error .immutable
  else if t.meta.authority ≠ some accs.authority.key then .error .incorrectAuthority
  else if t.meta.deactivation_slot ≠ u64Max then .error .invalidArgument
  else if LOOKUP_TABLE_MAX_ADDRESSES ≤ t.addresses.length then .error .invalidArgument
  else if new_addresses = [] then .error .invalidInstructionData
  else if LOOKUP_TABLE_MAX_ADDRESSES < t.addresses.length + new_addresses.length then
    .error .invalidInstructionData
  else if 256 ≤ t.addresses.length then
    -- u8::try_from(lookup_table.addresses.len()) fails exactly here
    .error .invalidAccountData
  else if t.is_writable = false then .error (.custom 10)
  else
    extend_rent_topup (extend_mutated_table t new_addresses clock_slot)
      accs.payer accs.has_system_program
      (max (rentMin (LOOKUP_TABLE_META_SIZE +
        (t.addresses.length + new_addresses.length) * 32)) 1 - t.lamports)

/-- Lookup table account as seen by the create handler: the raw byte
buffer, since the account may be uninitialized. -/
structure CreateTableAccount where
  key : Pubkey
  owner : Pubkey
  lamports : Nat
  data : List Nat
deriving DecidableEq

/-- Account inputs of process_create_lookup_table, in instruction order.
The system program account is consulted (fetched from the account iterator)
only after the rent transfer. -/
structure CreateAccounts where
  lookup_table : CreateTableAccount
  authority : SignerAccount
  payer : PayerAccount
  has_system_program : Bool
deriving DecidableEq

/-- Embedding of process_create_lookup_table from processor.rs.
Parameters embed the externals: derive is Pubkey::create_program_address
over the seeds (authority key, recent-slot bytes, bump), none meaning a
derivation failure, which the source maps through AddressLookupTableError
(embedded as custom 1, PubkeyErrorInvalidSeeds); recent is the spec-modelled
SlotHashesSysvar::get(slot).is_some() recency test; rentMin is the rent
sysvar. check_id compares the account owner against the program's own id,
which at runtime is the program_id the handler was invoked with. The CPI
allocate call follows system-program semantics: it fails (custom 0,
AccountAlreadyInUse) unless the account is system-owned with empty data;
assign then sets the owner to the program, and the new table meta is
serialized into the fresh 56-byte buffer. -/
def process_create_lookup_table (program_id system_program_id : Pubkey)
    (derive : Pubkey → Nat → Nat → Option Pubkey)
    (recent : Nat → Bool) (rentMin : Nat → Nat)
    (accs : CreateAccounts) (untrusted_recent_slot bump_seed : Nat) :
    Except ProgramError CreateAccounts :=
  if accs.payer.is_signer = false then .error .missingRequiredSignature
  else if recent untrusted_recent_slot = false then .error .invalidInstructionData
  else
    match derive accs.authority.key untrusted_recent_slot bump_seed with
    | none => .error (.custom 1)
    | some derived_table_key =>
      if accs.lookup_table.key ≠ derived_table_key then .error .invalidArgument
      else if accs.lookup_table.owner = program_id then .ok accs
      else
        let required_lamports :=
          max (rentMin LOOKUP_TABLE_META_SIZE) 1 - accs.lookup_table.lamports
        let transferred : Except ProgramError CreateAccounts :=
          if 0 < required_lamports then
            if accs.payer.lamports < required_lamports then .error (.custom 1)
            else
              .ok { accs with
                payer := { accs.payer with
                  lamports := accs.payer.lamports - required_lamports }
                lookup_table := { accs.lookup_table with
                  lamports := accs.lookup_table.lamports + required_lamports } }
          else .ok accs
        match transferred with
        | .error e => .error e
        | .ok accs1 =>
          if accs1.has_system_program = false then .error .notEnoughAccountKeys
          else if accs1.lookup_table.data ≠ [] ∨
              accs1.lookup_table.owner ≠ system_program_id then
            .error (.custom 0)
          else
            match serialize_new_lookup_table
                (List.replicate LOOKUP_TABLE_META_SIZE 0) accs1.authority.key with
            | .error e => .error e
            | .ok newData =>
              .ok { accs1 with
                lookup_table := { accs1.lookup_table with
                  owner := program_id
                  data := newData } }

/-- Recipient account of the close handler. -/
structure RecipientAccount where
  key : Pubkey
  lamports : Nat
  is_writable : Bool
deriving DecidableEq

/-- Account inputs of process_close_lookup_table, in instruction order. -/
structure CloseAccounts where
  lookup_table : TableAccount
  authority : SignerAccount
  recipient : RecipientAccount
deriving DecidableEq

/-- Result state of a successful close: the table keeps its owner, its
lamports drop to zero and its data is truncated to length zero; the
recipient receives all table lamports. -/
structure CloseOk where
  table_owner : Pubkey
  table_lamports : Nat
  table_data_len : Nat
  recipient_lamports : Nat
deriving DecidableEq

/-- Embedding of process_close_lookup_table from processor.rs. The u64
checked_add on the lamport totals overflows exactly when the sum exceeds
u64Max. -/
def process_close_lookup_table (program_id : Pubkey) (accs : CloseAccounts)
    (clock_slot : Nat) : Except ProgramError CloseOk :=
  let t := accs.lookup_table
  if t.owner ≠ program_id then .error .invalidAccountOwner
  else if accs.authority.is_signer = false then .error .missingRequiredSignature
  else if t.key = accs.recipient.key then .error .invalidArgument
  else if t.meta.authority = none then .error .immutable
  else if t.meta.authority ≠ some accs.authority.key then .error .incorrectAuthority
  else
    match get_lookup_table_status t.meta.deactivation_slot clock_slot with
    | .error e => .error e
    | .ok .activated => .error .invalidArgument
    | .ok (.deactivating _) => .error .invalidArgument
    | .ok .deactivated =>
      if u64Max < t.lamports + accs.recipient.lamports then
        .error .arithmeticOverflow
      else if accs.recipient.is_writable = false then .error (.custom 11)
      else if t.is_writable = false then .error (.custom 10)
      else
        .ok { table_owner := t.owner
              table_lamports := 0
              table_data_len := 0
              recipient_lamports := t.lamports + accs.recipient.lamports }

/-- Concrete metadata value without an authority, for concrete evaluations. -/
def wMetaFrozen : LookupTableMeta :=
  { deactivation_slot := 0
    last_extended_slot := 0
    last_extended_slot_start_index := 0
    authority := none
    padding := 0 }

/-- Concrete freshly created lookup table account (authority pk 2, owner
pk 1) used in concrete evaluations of the extend handler. -/
def wTable : TableAccount :=
  { key := pk 3
    owner := pk 1
    lamports := 1000
    is_writable := true
    meta := LookupTableMeta.new (pk 2)
    addresses := [] }

/-- Concrete extend account set: the fresh table, its authority signing,
no payer and no system program account provided. -/
def wExtendAccounts : ExtendAccounts :=
  { lookup_table := wTable
    authority := { key := pk 2, is_signer := true }
    payer := none
    has_system_program := false }

/-- Concrete close account set over a table deactivated at slot d. -/
def wCloseAccounts (d : Nat) : CloseAccounts :=
  { lookup_table := { key := pk 3
                      owner := pk 1
                      lamports := 5
                      is_writable := true
                      meta := { LookupTableMeta.new (pk 2) with deactivation_slot := d }
                      addresses := [] }
    authority := { key := pk 2, is_signer := true }
    recipient := { key := pk 4, lamports := 10, is_writable := true } }

/-- Concrete create account set whose table account is already owned by
the program pk 1. -/
def wCreateAccounts : CreateAccounts :=
  { lookup_table := { key := pk 3, owner := pk 1, lamports := 0, data := [] }
    authority := { key := pk 2, is_signer := false }
    payer := { key := pk 5, is_signer := true, lamports := 100 }
    has_system_program := true }

/-
Theorems. Helper lemmas come first; each claim is settled by a single
theorem labeled with its claim id.
-/

/-- Helper: a strict upper bound by u64Max rules out the sentinel. -/
theorem ne_u64Max_of_lt {d : Nat} (h : d < u64Max) : d ≠ u64Max :=
  Nat.ne_of_lt h

/-- Claim C1, counterexample. At deactivation slot 1 and current slot 1,
the state.rs status function returns Deactivating with remaining_blocks
512, not the 513 the claim asserts for both implementations. -/
theorem c1_counterexample :
    ¬ (LookupTableMeta.status
        { deactivation_slot := 1
          last_extended_slot := 0
          last_extended_slot_start_index := 0
          authority := none
          padding := 0 } 1 = .deactivating 513) := by
  decide

/-- Claim C1 (amended): for every deactivation slot d below u64::MAX,
evaluating the status at current_slot = d yields Deactivating with
remaining_blocks = 513 in processor.rs (get_lookup_table_status) but
remaining_blocks = 512 in state.rs (LookupTableMeta::status); the two
implementations disagree on the same-slot sentinel. -/
theorem c1_same_slot_status (d : Nat) (meta : LookupTableMeta)
    (hlt : d < u64Max) (hd : meta.deactivation_slot = d) :
    get_lookup_table_status d d = .ok (.deactivating 513) ∧
      meta.status d = .deactivating 512 := by
  constructor
  · simp [get_lookup_table_status, ne_u64Max_of_lt hlt, MAX_ENTRIES]
  · simp [LookupTableMeta.status, hd, ne_u64Max_of_lt hlt, MAX_ENTRIES]

/-- Witness for C1's theorem at d = 7. -/
theorem c1_same_slot_status_witness :
    get_lookup_table_status 7 7 = .ok (.deactivating 513) ∧
      LookupTableMeta.status
        { deactivation_slot := 7
          last_extended_slot := 0
          last_extended_slot_start_index := 0
          authority := none
          padding := 0 } 7 = .deactivating 512 :=
  c1_same_slot_status 7 _ (by decide) (by decide)

/-- Claim C5: the state.rs status function returns Activated whenever the
deactivation slot is the u64::MAX sentinel; Deactivating with 512 - k
remaining blocks at current slot d + k for 1 <= k < 512; and Deactivated
for k >= 512. Bounds keep all slots within u64 range. -/
theorem c5_status_function :
    (∀ (meta : LookupTableMeta) (c : Nat),
        meta.deactivation_slot = u64Max → c ≤ u64Max →
        meta.status c = .activated) ∧
    (∀ (meta : LookupTableMeta) (d k : Nat),
        meta.deactivation_slot = d → d < u64Max → 1 ≤ k → k < MAX_ENTRIES →
        d + k ≤ u64Max →
        meta.status (d + k) = .deactivating (MAX_ENTRIES - k)) ∧
    (∀ (meta : LookupTableMeta) (d k : Nat),
        meta.deactivation_slot = d → d < u64Max → MAX_ENTRIES ≤ k →
        d + k ≤ u64Max →
        meta.status (d + k) = .deactivated) := by
  refine ⟨?_, ?_, ?_⟩
  · intro meta c hd _
    simp [LookupTableMeta.status, hd]
  · intro meta d k hd hlt hk1 hk2 _
    have hne : d ≠ d + k := by omega
    simp only [LookupTableMeta.status, hd, ne_u64Max_of_lt hlt, if_false,
      calculate_slot_position]
    have hpos : d + k - d = k := by omega
    simp only [hpos]
    rw [if_neg (by omega), if_neg (by omega)]
  · intro meta d k hd hlt hk _
    have hk512 : 512 ≤ k := by simpa [MAX_ENTRIES] using hk
    have hne : d ≠ d + k := by omega
    simp only [LookupTableMeta.status, hd, ne_u64Max_of_lt hlt, if_false,
      calculate_slot_position]
    have hpos : d + k - d = k := by omega
    simp only [hpos]
    rw [if_neg (by omega), if_pos (by omega)]

/-- Witness for C5's theorem at concrete slots. -/
theorem c5_status_function_witness :
    LookupTableMeta.status
        { deactivation_slot := u64Max
          last_extended_slot := 0
          last_extended_slot_start_index := 0
          authority := none
          padding := 0 } 9 = .activated ∧
    LookupTableMeta.status
        { deactivation_slot := 100
          last_extended_slot := 0
          last_extended_slot_start_index := 0
          authority := none
          padding := 0 } (100 + 5) = .deactivating (MAX_ENTRIES - 5) ∧
    LookupTableMeta.status
        { deactivation_slot := 100
          last_extended_slot := 0
          last_extended_slot_start_index := 0
          authority := none
          padding := 0 } (100 + 600) = .deactivated :=
  ⟨c5_status_function.1 _ 9 (by decide) (by decide),
   c5_status_function.2.1 _ 100 5 (by decide) (by decide) (by decide) (by decide)
     (by decide),
   c5_status_function.2.2 _ 100 600 (by decide) (by decide) (by decide) (by decide)⟩

/-- Helper: the serialized meta region is never longer than 56 bytes (24
bytes with the authority absent, 56 with it present). -/
theorem serializeLookupTableState_length_le (meta : LookupTableMeta) :
    (serializeLookupTableState meta).length ≤ LOOKUP_TABLE_META_SIZE := by
  cases h : meta.authority with
  | none => simp [serializeLookupTableState, leBytes, h, LOOKUP_TABLE_META_SIZE]
  | some key =>
    simp [serializeLookupTableState, leBytes, h, key.property, LOOKUP_TABLE_META_SIZE]

/-- Claim C9: for every buffer of length at least 56 and every meta value,
a successful overwrite_meta_data leaves every byte at offsets 56 and
beyond exactly unchanged and rewrites only bytes [0..56], which afterwards
hold the serialized meta followed by the zero fill. -/
theorem c9_overwrite_meta_frame (data : List Nat) (meta : LookupTableMeta)
    (out : List Nat) (hlen : LOOKUP_TABLE_META_SIZE ≤ data.length)
    (hok : overwrite_meta_data data meta = .ok out) :
    out.length = data.length ∧
    out.drop LOOKUP_TABLE_META_SIZE = data.drop LOOKUP_TABLE_META_SIZE ∧
    out.take LOOKUP_TABLE_META_SIZE =
      serializeLookupTableState meta ++
        List.replicate (LOOKUP_TABLE_META_SIZE - (serializeLookupTableState meta).length) 0 := by
  have hsle := serializeLookupTableState_length_le meta
  unfold overwrite_meta_data at hok
  rw [if_neg (by omega)] at hok
  simp only [if_neg (by omega : ¬ LOOKUP_TABLE_META_SIZE < (serializeLookupTableState meta).length)] at hok
  injection hok with hout
  subst hout
  have hpre : (serializeLookupTableState meta ++
      List.replicate (LOOKUP_TABLE_META_SIZE - (serializeLookupTableState meta).length) 0).length
      = LOOKUP_TABLE_META_SIZE := by
    simp only [List.length_append, List.length_replicate]
    omega
  refine ⟨?_, ?_, ?_⟩
  · simp only [List.length_append, List.length_drop, hpre]
    omega
  · rw [List.drop_left' hpre]
  · rw [List.take_left' hpre]

/-- Witness for C9's theorem on a 60-byte buffer of sevens. -/
theorem c9_overwrite_meta_frame_witness :
    (serializeLookupTableState wMetaFrozen ++ List.replicate 32 0 ++
        List.replicate 4 7).length = (List.replicate 60 7).length ∧
    (serializeLookupTableState wMetaFrozen ++ List.replicate 32 0 ++
        List.replicate 4 7).drop LOOKUP_TABLE_META_SIZE =
      (List.replicate 60 7).drop LOOKUP_TABLE_META_SIZE ∧
    (serializeLookupTableState wMetaFrozen ++ List.replicate 32 0 ++
        List.replicate 4 7).take LOOKUP_TABLE_META_SIZE =
      serializeLookupTableState wMetaFrozen ++
        List.replicate (LOOKUP_TABLE_META_SIZE -
          (serializeLookupTableState wMetaFrozen).length) 0 :=
  c9_overwrite_meta_frame (List.replicate 60 7) wMetaFrozen _ (by decide) (by decide)

/-- Claim C8: every input longer than 1232 bytes is rejected with
InvalidInstructionData, and every input whose stub decoding is an
ExtendLookupTable whose 8-byte little-endian vector length exceeds 38 is
rejected with InvalidInstructionData no matter what full deserializer
would run next (the peek precedes the vector deserialization). -/
theorem c8_decoder_limits :
    (∀ input : List Nat, MAX_INPUT_LEN < input.length →
        safe_deserialize_instruction input = .error .invalidInstructionData) ∧
    (∀ (input : List Nat) (vector_len : Nat)
        (full : List Nat → Except ProgramError AddressLookupTableInstruction),
        deserializeStub input = some (.extendLookupTable vector_len) →
        MAX_NEW_KEYS_VECTOR_LEN < vector_len →
        safeDeserializeWith full input = .error .invalidInstructionData) := by
  constructor
  · intro input hlen
    unfold safe_deserialize_instruction safeDeserializeWith
    cases hstub : deserializeStub input with
    | none => rfl
    | some stub =>
      cases stub <;> simp [limited_deserialize, hlen]
  · intro input vector_len full hstub hbig
    unfold safeDeserializeWith
    rw [hstub]
    simp [hbig]

/-- Witness for C8's theorem: a 1233-byte input, and an extend stub with
vector length 39 in front of a second stage that would accept anything. -/
theorem c8_decoder_limits_witness :
    safe_deserialize_instruction (List.replicate 1233 0) =
      .error .invalidInstructionData ∧
    safeDeserializeWith (fun _ => .ok .closeLookupTable)
        ([2, 0, 0, 0] ++ leBytes 8 39) = .error .invalidInstructionData :=
  ⟨c8_decoder_limits.1 _ (by norm_num [MAX_INPUT_LEN]),
   c8_decoder_limits.2 _ 39 _ (by decide) (by decide)⟩

/-- Helper: a successful rent top-up phase does not change the table's
meta or addresses (it only moves lamports). -/
theorem extend_rent_topup_ok (t : TableAccount) (payer : Option PayerAccount)
    (hs : Bool) (req : Nat) (res : ExtendOk)
    (hok : extend_rent_topup t payer hs req = .ok res) :
    res.lookup_table.meta = t.meta ∧ res.lookup_table.addresses = t.addresses := by
  unfold extend_rent_topup at hok
  repeat' split at hok
  all_goals try simp at hok
  all_goals subst hok
  all_goals exact ⟨rfl, rfl⟩

/-- Claim C10: in process_extend_lookup_table the InvalidAccountData
branch guarding u8::try_from of the old address count is unreachable: no
input whatsoever makes the handler return InvalidAccountData, because the
capacity check (old count below 256) precedes the conversion. -/
theorem c10_u8_conversion_unreachable (program_id : Pubkey)
    (accs : ExtendAccounts) (new_addresses : List Pubkey) (clock_slot : Nat)
    (rentMin : Nat → Nat) :
    process_extend_lookup_table program_id accs new_addresses clock_slot rentMin ≠
      .error .invalidAccountData := by
  intro h
  simp only [process_extend_lookup_table] at h
  repeat' split at h
  all_goals try simp at h
  all_goals try (have hmax : LOOKUP_TABLE_MAX_ADDRESSES = 256 := rfl; omega)
  all_goals (unfold extend_rent_topup at h; repeat' split at h)
  all_goals simp at h

/-- Claim C6: after the ownership, signer, authority and deactivation
checks pass, extend rejects a full table (256 addresses) with
InvalidArgument, then an empty new-address list with
InvalidInstructionData, then an overflowing total with
InvalidInstructionData, in that order. -/
theorem c6_extend_capacity_checks (program_id : Pubkey)
    (accs : ExtendAccounts) (new_addresses : List Pubkey) (clock_slot : Nat)
    (rentMin : Nat → Nat)
    (howner : accs.lookup_table.owner = program_id)
    (hsign : accs.authority.is_signer = true)
    (hauth : accs.lookup_table.meta.authority = some accs.authority.key)
    (hdeact : accs.lookup_table.meta.deactivation_slot = u64Max) :
    (LOOKUP_TABLE_MAX_ADDRESSES ≤ accs.lookup_table.addresses.length →
      process_extend_lookup_table program_id accs new_addresses clock_slot rentMin =
        .error .invalidArgument) ∧
    (accs.lookup_table.addresses.length < LOOKUP_TABLE_MAX_ADDRESSES →
      new_addresses = [] →
      process_extend_lookup_table program_id accs new_addresses clock_slot rentMin =
        .error .invalidInstructionData) ∧
    (accs.lookup_table.addresses.length < LOOKUP_TABLE_MAX_ADDRESSES →
      new_addresses ≠ [] →
      LOOKUP_TABLE_MAX_ADDRESSES <
        accs.lookup_table.addresses.length + new_addresses.length →
      process_extend_lookup_table program_id accs new_addresses clock_slot rentMin =
        .error .invalidInstructionData) := by
  refine ⟨?_, ?_, ?_⟩
  · intro hfull
    simp [process_extend_lookup_table, howner, hsign, hauth, hdeact, hfull]
  · intro hroom hnil
    simp [process_extend_lookup_table, howner, hsign, hauth, hdeact, hnil,
      Nat.not_le_of_lt hroom]
  · intro hroom hnil hover
    simp [process_extend_lookup_table, howner, hsign, hauth, hdeact, hnil,
      Nat.not_le_of_lt hroom, hover]

set_option maxRecDepth 4096 in
/-- Witness for C6's theorem: a full table (256 addresses) rejected with
InvalidArgument. -/
theorem c6_extend_capacity_checks_witness :
    process_extend_lookup_table (pk 1)
      { wExtendAccounts with
        lookup_table := { wTable with addresses := List.replicate 256 (pk 8) } }
      [pk 9] 0 (fun _ => 0) = .error .invalidArgument :=
  (c6_extend_capacity_checks (pk 1) _ [pk 9] 0 (fun _ => 0) (by decide)
    (by decide) (by decide) (by decide)).1
    (by show LOOKUP_TABLE_MAX_ADDRESSES ≤ (List.replicate 256 (pk 8)).length
        simp [List.length_replicate, LOOKUP_TABLE_MAX_ADDRESSES])

/-- Claim C2: with the ownership, signer, authority, deactivation and
capacity validations passed, a non-writable table account makes extend
fail with the custom error 10 (ReadonlyDataModified) for every payer
configuration (missing payer, non-signing payer) and every rent function,
because the check runs before the rent-deficit computation and the
payer and system-program account fetches; the capacity validations still
run first, so an empty new-address list wins over the readonly check. -/
theorem c2_extend_readonly_custom10 (program_id : Pubkey)
    (accs : ExtendAccounts) (new_addresses : List Pubkey) (clock_slot : Nat)
    (rentMin : Nat → Nat)
    (howner : accs.lookup_table.owner = program_id)
    (hsign : accs.authority.is_signer = true)
    (hauth : accs.lookup_table.meta.authority = some accs.authority.key)
    (hdeact : accs.lookup_table.meta.deactivation_slot = u64Max)
    (hcap : accs.lookup_table.addresses.length + new_addresses.length ≤
      LOOKUP_TABLE_MAX_ADDRESSES) :
    (new_addresses ≠ [] → accs.lookup_table.is_writable = false →
      process_extend_lookup_table program_id accs new_addresses clock_slot rentMin =
        .error (.custom 10)) ∧
    (new_addresses = [] → accs.lookup_table.addresses.length < LOOKUP_TABLE_MAX_ADDRESSES →
      process_extend_lookup_table program_id accs new_addresses clock_slot rentMin =
        .error .invalidInstructionData) := by
  constructor
  · intro hnil hw
    have hlen : accs.lookup_table.addresses.length < LOOKUP_TABLE_MAX_ADDRESSES := by
      have hpos : 0 < new_addresses.length := by
        cases new_addresses with
        | nil => exact absurd rfl hnil
        | cons a l => simp
      omega
    have h256 : ¬ 256 ≤ accs.lookup_table.addresses.length := by
      have hmax : LOOKUP_TABLE_MAX_ADDRESSES = 256 := rfl
      omega
    simp [process_extend_lookup_table, howner, hsign, hauth, hdeact, hnil, hw,
      Nat.not_le_of_lt hlen, Nat.not_lt_of_le hcap, h256]
  · intro hnil hroom
    simp [process_extend_lookup_table, howner, hsign, hauth, hdeact, hnil,
      Nat.not_le_of_lt hroom]

/-- Witness for C2's theorem: a readonly table with no payer account at
all still fails with custom code 10. -/
theorem c2_extend_readonly_custom10_witness :
    process_extend_lookup_table (pk 1)
      { wExtendAccounts with lookup_table := { wTable with is_writable := false } }
      [pk 9] 0 (fun _ => 0) = .error (.custom 10) :=
  (c2_extend_readonly_custom10 (pk 1) _ [pk 9] 0 (fun _ => 0) (by decide)
    (by decide) (by decide) (by decide) (by decide)).1 (by decide) (by decide)

/-- Claim C3, counterexample. A fresh table (zero addresses, meta stamped
with last_extended_slot = 0 and start index 0) extended at clock slot 0
succeeds, and the resulting start index (0, untouched because the clock
slot equals the previous last_extended_slot) equals the old address count
(0) even though the current slot does not differ from the previous
last_extended_slot, refuting the claimed equivalence. -/
theorem c3_counterexample :
    process_extend_lookup_table (pk 1) wExtendAccounts [pk 9] 0 (fun _ => 0) =
      .ok { lookup_table := { wTable with addresses := [pk 9] }, payer := none } ∧
    ¬ ((({ wTable with addresses := [pk 9] } : TableAccount)).meta.last_extended_slot_start_index =
          wTable.addresses.length ↔
        (0 : Nat) ≠ wTable.meta.last_extended_slot) := by
  constructor
  · decide
  · decide

/-- Claim C3 (amended): every successful extend of k > 0 keys onto a table
with old addresses yields old + k addresses whose last k entries are the
supplied keys in order, stamps last_extended_slot with the current clock
slot, and sets last_extended_slot_start_index to old when the clock slot
differs from the previous last_extended_slot, leaving it at its previous
value otherwise (in which case it may coincide with old). -/
theorem c3_extend_success_postconditions (program_id : Pubkey)
    (accs : ExtendAccounts) (new_addresses : List Pubkey) (clock_slot : Nat)
    (rentMin : Nat → Nat) (res : ExtendOk)
    (hok : process_extend_lookup_table program_id accs new_addresses clock_slot rentMin =
      .ok res) :
    res.lookup_table.addresses.length =
      accs.lookup_table.addresses.length + new_addresses.length ∧
    res.lookup_table.addresses.drop accs.lookup_table.addresses.length = new_addresses ∧
    res.lookup_table.meta.last_extended_slot = clock_slot ∧
    (clock_slot ≠ accs.lookup_table.meta.last_extended_slot →
      res.lookup_table.meta.last_extended_slot_start_index =
        accs.lookup_table.addresses.length) ∧
    (clock_slot = accs.lookup_table.meta.last_extended_slot →
      res.lookup_table.meta.last_extended_slot_start_index =
        accs.lookup_table.meta.last_extended_slot_start_index) := by
  simp only [process_extend_lookup_table] at hok
  repeat' split at hok
  all_goals try simp at hok
  obtain ⟨hmeta, haddr⟩ := extend_rent_topup_ok _ _ _ _ _ hok
  simp only [extend_mutated_table] at hmeta haddr
  refine ⟨?_, ?_, ?_, ?_, ?_⟩
  · rw [haddr]
    simp
  · rw [haddr, List.drop_left]
  · rw [hmeta]
    split
    · rfl
    · next hc => omega
  · intro hne
    rw [hmeta]
    rw [if_pos hne]
  · intro heq
    rw [hmeta]
    rw [if_neg (by omega)]

/-- Witness for C3's theorem: one key appended at clock slot 7 onto the
fresh table, whose previous last_extended_slot is 0. -/
theorem c3_extend_success_postconditions_witness :
    (({ wTable with
        addresses := [pk 9]
        meta := { wTable.meta with last_extended_slot := 7 } } : TableAccount)).addresses.length =
      wTable.addresses.length + [pk 9].length ∧
    (({ wTable with
        addresses := [pk 9]
        meta := { wTable.meta with last_extended_slot := 7 } } : TableAccount)).addresses.drop
        wTable.addresses.length = [pk 9] ∧
    (({ wTable with
        addresses := [pk 9]
        meta := { wTable.meta with last_extended_slot := 7 } } : TableAccount)).meta.last_extended_slot = 7 ∧
    ((7 : Nat) ≠ wTable.meta.last_extended_slot →
      (({ wTable with
          addresses := [pk 9]
          meta := { wTable.meta with last_extended_slot := 7 } } : TableAccount)).meta.last_extended_slot_start_index =
        wTable.addresses.length) ∧
    ((7 : Nat) = wTable.meta.last_extended_slot →
      (({ wTable with
          addresses := [pk 9]
          meta := { wTable.meta with last_extended_slot := 7 } } : TableAccount)).meta.last_extended_slot_start_index =
        wTable.meta.last_extended_slot_start_index) :=
  c3_extend_success_postconditions (pk 1) wExtendAccounts [pk 9] 7 (fun _ => 0)
    { lookup_table :=
        { wTable with
          addresses := [pk 9]
          meta := { wTable.meta with last_extended_slot := 7 } }
      payer := none } (by decide)

/-- Claim C4: once the ownership, signer, distinct-recipient and authority
checks pass on a table deactivated at slot d below the sentinel, a close
at any current slot c with d <= c < d + 512 fails with InvalidArgument
(the status is Deactivating, never Activated), while at any c >= d + 512
the status check yields Deactivated and the close is admitted: with a
writable recipient and table and no lamport overflow it drains all table
lamports to the recipient, truncates the data to zero and keeps the
owner. -/
theorem c4_close_cooldown (program_id : Pubkey) (accs : CloseAccounts)
    (d c : Nat)
    (hd : accs.lookup_table.meta.deactivation_slot = d)
    (hdmax : d < u64Max) (hc : c ≤ u64Max)
    (howner : accs.lookup_table.owner = program_id)
    (hsign : accs.authority.is_signer = true)
    (hkey : accs.lookup_table.key ≠ accs.recipient.key)
    (hauth : accs.lookup_table.meta.authority = some accs.authority.key) :
    (d ≤ c → c < d + MAX_ENTRIES →
      process_close_lookup_table program_id accs c = .error .invalidArgument) ∧
    (d + MAX_ENTRIES ≤ c →
      get_lookup_table_status d c = .ok .deactivated ∧
      (accs.lookup_table.lamports + accs.recipient.lamports ≤ u64Max →
        accs.recipient.is_writable = true → accs.lookup_table.is_writable = true →
        process_close_lookup_table program_id accs c =
          .ok { table_owner := accs.lookup_table.owner
                table_lamports := 0
                table_data_len := 0
                recipient_lamports :=
                  accs.lookup_table.lamports + accs.recipient.lamports })) := by
  have hne : d ≠ u64Max := ne_u64Max_of_lt hdmax
  have hment : MAX_ENTRIES = 512 := rfl
  constructor
  · intro hdc hlt
    by_cases heq : d = c
    · subst heq
      simp [process_close_lookup_table, howner, hsign, hkey, hauth, hd,
        get_lookup_table_status, hne]
    · have hpos : ¬ (MAX_ENTRIES ≤ c - d) := by omega
      simp [process_close_lookup_table, howner, hsign, hkey, hauth, hd,
        get_lookup_table_status, slotHashesPosition, calculate_slot_position,
        hne, heq, hpos]
  · intro hge
    have hnth : d ≠ c := by omega
    have hnone : MAX_ENTRIES ≤ c - d := by omega
    have hstat : get_lookup_table_status d c = .ok .deactivated := by
      simp [get_lookup_table_status, slotHashesPosition, calculate_slot_position,
        hne, hnth, hnone]
    refine ⟨hstat, ?_⟩
    intro hov hrw htw
    simp [process_close_lookup_table, howner, hsign, hkey, hauth, hd, hstat,
      hrw, htw, Nat.not_lt_of_le hov]

/-- Witness for C4's theorem: a table deactivated at slot 1; close fails
at slots 1, 40 and 512 and succeeds at slot 513. -/
theorem c4_close_cooldown_witness :
    process_close_lookup_table (pk 1) (wCloseAccounts 1) 1 = .error .invalidArgument ∧
    process_close_lookup_table (pk 1) (wCloseAccounts 1) 40 = .error .invalidArgument ∧
    process_close_lookup_table (pk 1) (wCloseAccounts 1) 512 = .error .invalidArgument ∧
    process_close_lookup_table (pk 1) (wCloseAccounts 1) 513 =
      .ok { table_owner := pk 1
            table_lamports := 0
            table_data_len := 0
            recipient_lamports := 15 } :=
  ⟨(c4_close_cooldown (pk 1) (wCloseAccounts 1) 1 1 (by decide) (by decide)
      (by decide) (by decide) (by decide) (by decide) (by decide)).1
      (by decide) (by decide),
   (c4_close_cooldown (pk 1) (wCloseAccounts 1) 1 40 (by decide) (by decide)
      (by decide) (by decide) (by decide) (by decide) (by decide)).1
      (by decide) (by decide),
   (c4_close_cooldown (pk 1) (wCloseAccounts 1) 1 512 (by decide) (by decide)
      (by decide) (by decide) (by decide) (by decide) (by decide)).1
      (by decide) (by decide),
   ((c4_close_cooldown (pk 1) (wCloseAccounts 1) 1 513 (by decide) (by decide)
      (by decide) (by decide) (by decide) (by decide) (by decide)).2
      (by decide)).2 (by decide) (by decide) (by decide)⟩

/-- Helper: after the payer-signer, recent-slot and derived-address checks
pass, a table account already owned by the program makes create return
success immediately without touching any account. -/
theorem create_owner_early_return (program_id system_program_id : Pubkey)
    (derive : Pubkey → Nat → Nat → Option Pubkey) (recent : Nat → Bool)
    (rentMin : Nat → Nat) (accs : CreateAccounts)
    (untrusted_recent_slot bump_seed : Nat)
    (hps : accs.payer.is_signer = true)
    (hrec : recent untrusted_recent_slot = true)
    (hder : derive accs.authority.key untrusted_recent_slot bump_seed =
      some accs.lookup_table.key)
    (howner : accs.lookup_table.owner = program_id) :
    process_create_lookup_table program_id system_program_id derive recent rentMin
      accs untrusted_recent_slot bump_seed = .ok accs := by
  simp [process_create_lookup_table, hps, hrec, hder, howner]

/-- Claim C7: create is idempotent. When the payer-signer, recent-slot and
derived-address checks pass and the table account is already owned by the
program, the handler returns success with the account state unchanged; and
whenever a create execution succeeds, executing it again on the resulting
state with the same inputs succeeds and leaves the state exactly as the
first execution produced it. -/
theorem c7_create_idempotent (program_id system_program_id : Pubkey)
    (derive : Pubkey → Nat → Nat → Option Pubkey) (recent : Nat → Bool)
    (rentMin : Nat → Nat) (accs : CreateAccounts)
    (untrusted_recent_slot bump_seed : Nat) :
    (accs.payer.is_signer = true → recent untrusted_recent_slot = true →
      derive accs.authority.key untrusted_recent_slot bump_seed =
        some accs.lookup_table.key →
      accs.lookup_table.owner = program_id →
      process_create_lookup_table program_id system_program_id derive recent rentMin
        accs untrusted_recent_slot bump_seed = .ok accs) ∧
    (∀ accs2,
      process_create_lookup_table program_id system_program_id derive recent rentMin
        accs untrusted_recent_slot bump_seed = .ok accs2 →
      process_create_lookup_table program_id system_program_id derive recent rentMin
        accs2 untrusted_recent_slot bump_seed = .ok accs2) := by
  constructor
  · intro hps hrec hder howner
    exact create_owner_early_return _ _ _ _ _ _ _ _ hps hrec hder howner
  · intro accs2 hok
    simp only [process_create_lookup_table] at hok
    repeat' split at hok
    all_goals try simp at hok
    all_goals subst hok
    · rename_i hps hrec xd key hder hkey hown
      exact create_owner_early_return _ _ _ _ _ _ _ _ (by simpa using hps)
        (by simpa using hrec) (by rw [not_not.mp hkey]; exact hder) hown
    · rename_i hps hrec xd key hder hkey hown htr accs1 htrans hsys halloc xs newData hser
      split at htrans
      · split at htrans
        · simp at htrans
        · simp at htrans
          subst htrans
          exact create_owner_early_return _ _ _ _ _ _ _ _ (by simpa using hps)
            (by simpa using hrec)
            (by dsimp only; rw [not_not.mp hkey]; exact hder) rfl
      · simp at htrans
        subst htrans
        exact create_owner_early_return _ _ _ _ _ _ _ _ (by simpa using hps)
          (by simpa using hrec)
          (by dsimp only; rw [not_not.mp hkey]; exact hder) rfl

/-- Witness for C7's theorem: a concrete create on a table already owned
by the program succeeds unchanged, and re-running create on that result
also returns it unchanged. -/
theorem c7_create_idempotent_witness :
    process_create_lookup_table (pk 1) (pk 0) (fun _ _ _ => some (pk 3))
      (fun _ => true) (fun _ => 2) wCreateAccounts 123 7 = .ok wCreateAccounts ∧
    process_create_lookup_table (pk 1) (pk 0) (fun _ _ _ => some (pk 3))
      (fun _ => true) (fun _ => 2) wCreateAccounts 123 7 = .ok wCreateAccounts :=
  ⟨(c7_create_idempotent (pk 1) (pk 0) (fun _ _ _ => some (pk 3)) (fun _ => true)
      (fun _ => 2) wCreateAccounts 123 7).1 (by decide) (by decide) (by decide)
      (by decide),
   (c7_create_idempotent (pk 1) (pk 0) (fun _ _ _ => some (pk 3)) (fun _ => true)
      (fun _ => 2) wCreateAccounts 123 7).2 wCreateAccounts
      ((c7_create_idempotent (pk 1) (pk 0) (fun _ _ _ => some (pk 3)) (fun _ => true)
        (fun _ => 2) wCreateAccounts 123 7).1 (by decide) (by decide) (by decide)
        (by decide))⟩

end ALT
